import Mathlib

/-!
# Verification of dary-business-utils

A shallow embedding of the two source modules of the library (the DAR
token-economy utilities and the validation utilities), together with
theorems settling the specified properties.

Modelling conventions:

* JavaScript numbers are modelled as exact rationals (`ℚ`); `Math.floor`,
  `Math.ceil`, `toFixed` and `toLocaleString` are modelled by exact
  integer rounding per the ECMAScript specification (`toFixed` picks the
  larger candidate on ties, i.e. `⌊x·10^f + 1/2⌋`; `Intl` number
  formatting rounds half away from zero with at most 3 fraction digits).
* A function that can `throw` is modelled as returning `Except String`,
  the error message being the thrown `RangeError` message.
* `Date | string` parameters are modelled by the result of parsing them,
  `Option ℚ` — `some t` for a millisecond timestamp, `none` when
  `new Date(x)` yields an invalid date; the implicit clock read
  (`new Date()`) is made an explicit final parameter `now`.
* String operations are carried out structurally on the character list
  of the string (JavaScript's `trim`, `split`, `toLowerCase`,
  whitespace stripping and the two regular expressions are modelled
  character by character over their ASCII character classes).
* Optional parameters are made explicit; the JavaScript default values
  are recorded in the doc comments.
-/

/-! ## Token economy utilities (first source module) -/

/-- DAR to EUR conversion rate (1 DAR = 0.01 EUR by default). -/
def DEFAULT_DAR_EUR_RATE : ℚ := 1/100

/-- `x.toFixed(2)` followed by `parseFloat`: round to 2 decimal places,
ties to the larger candidate (ECMAScript `Number.prototype.toFixed`). -/
def round2 (q : ℚ) : ℚ := ((⌊q * 100 + 1/2⌋ : ℤ) : ℚ) / 100

/-- The value computed by `darToEur` on the non-throwing path:
`parseFloat((darAmount * rate).toFixed(2))`. -/
def darToEurVal (darAmount rate : ℚ) : ℚ := round2 (darAmount * rate)

/-- `darToEur(darAmount, rate = DEFAULT_DAR_EUR_RATE)`: throws a
`RangeError` for a negative amount, otherwise the amount times the rate
rounded to 2 decimal places. -/
def darToEur (darAmount rate : ℚ) : Except String ℚ :=
  if darAmount < 0 then .error "DAR amount must be non-negative"
  else .ok (darToEurVal darAmount rate)

/-- The value computed by `eurToDar` on the non-throwing path:
`Math.floor(eurAmount / rate)`. -/
def eurToDarVal (eurAmount rate : ℚ) : ℚ := ((⌊eurAmount / rate⌋ : ℤ) : ℚ)

/-- `eurToDar(eurAmount, rate = DEFAULT_DAR_EUR_RATE)`: throws a
`RangeError` for a negative amount, otherwise `floor(eurAmount / rate)`. -/
def eurToDar (eurAmount rate : ℚ) : Except String ℚ :=
  if eurAmount < 0 then .error "EUR amount must be non-negative"
  else .ok (eurToDarVal eurAmount rate)

/-- Group a digit list (least significant digit first) into blocks of
three, for thousands separators. -/
def chunk3 (l : List Char) : List (List Char) :=
  match l with
  | [] => []
  | [a] => [[a]]
  | [a, b] => [[a, b]]
  | a :: b :: c :: rest => [a, b, c] :: chunk3 rest

/-- Decimal representation of a natural number with `,` thousands
separators (the integer-part grouping of `toLocaleString('en-US')`). -/
def natGroup (n : ℕ) : String :=
  let ds := (Nat.repr n).data
  String.intercalate "," (((chunk3 ds.reverse).reverse.map List.reverse).map String.mk)

/-- `x.toFixed(2)` as a string: 2 fraction digits, ties to the larger
candidate, `-` sign taken from the rounded value. -/
def toFixed2Str (q : ℚ) : String :=
  let n : ℤ := ⌊q * 100 + 1/2⌋
  let m := n.natAbs
  (if n < 0 then "-" else "")
    ++ Nat.repr (m / 100) ++ "."
    ++ (if m % 100 < 10 then "0" else "") ++ Nat.repr (m % 100)

/-- Drop trailing `'0'` characters from a fraction-digit string. -/
def dropTrailingZeros (s : String) : String :=
  String.mk (s.data.reverse.dropWhile (fun c => c == '0')).reverse

/-- `x.toLocaleString('en-US')` (ECMAScript `Intl.NumberFormat` with the
default options): at most 3 fraction digits, rounding half away from
zero, integer part grouped with `,`. -/
def toLocaleStringEnUS (q : ℚ) : String :=
  let n : ℤ := if q < 0 then -⌊-q * 1000 + 1/2⌋ else ⌊q * 1000 + 1/2⌋
  let m := n.natAbs
  let fr := m % 1000
  let frStr := (if fr < 100 then "0" else "") ++ (if fr < 10 then "0" else "")
    ++ Nat.repr fr
  (if n < 0 then "-" else "")
    ++ natGroup (m / 1000)
    ++ (if fr = 0 then "" else "." ++ dropTrailingZeros frStr)

/-- `formatDar(amount, options)` with the options object flattened:
JavaScript defaults are `compact = false`, `showSymbol = true`. -/
def formatDar (amount : ℚ) (compact showSymbol : Bool) : String :=
  let symbol := if showSymbol then " DAR" else ""
  if compact then
    if amount ≥ 1000000 then toFixed2Str (amount / 1000000) ++ "M" ++ symbol
    else if amount ≥ 1000 then toFixed2Str (amount / 1000) ++ "K" ++ symbol
    else toLocaleStringEnUS amount ++ symbol
  else toLocaleStringEnUS amount ++ symbol

/-- `calcReferralReward(tier, baseDar)`: the hardcoded tier table
(1 → 100%, 2 → 30%, 3 → 10%, anything else → 0%), floored. -/
def calcReferralReward (tier : ℤ) (baseDar : ℚ) : ℚ :=
  let percentage : ℚ :=
    if tier = 1 then 1 else if tier = 2 then 3/10 else if tier = 3 then 1/10 else 0
  ((⌊baseDar * percentage⌋ : ℤ) : ℚ)

/-- `hasSufficientDar(balance, required, includeBuffer = false)`:
compares the balance against the required amount, with a 10% buffer on
the threshold when `includeBuffer` is set. -/
def hasSufficientDar (balance required : ℚ) (includeBuffer : Bool) : Bool :=
  let threshold := if includeBuffer then required * (11/10) else required
  decide (balance ≥ threshold)

/-- The record returned by `calcCampaignBudget`. -/
structure CampaignBudget where
  minBudget : ℚ
  recommendedBudget : ℚ
  maxBudget : ℚ
deriving DecidableEq, Repr

/-- `calcCampaignBudget(giftCostDar, estimatedLeads, conversionRate = 0.15)`:
`expectedGifts = ceil(estimatedLeads * conversionRate)`, the minimum
budget covers the expected gifts, the recommended budget adds a 20%
buffer (ceiled), the maximum budget is the 100%-conversion scenario. -/
def calcCampaignBudget (giftCostDar estimatedLeads conversionRate : ℚ) :
    CampaignBudget :=
  let expectedGifts : ℤ := ⌈estimatedLeads * conversionRate⌉
  { minBudget := (expectedGifts : ℚ) * giftCostDar
    recommendedBudget := ((⌈(expectedGifts : ℚ) * giftCostDar * (6/5)⌉ : ℤ) : ℚ)
    maxBudget := estimatedLeads * giftCostDar }

/-! ## Validation utilities (second source module, `validation.ts`) -/

/-- The result record of every `validate*` function:
`{ valid: boolean, error?: string }`, an absent `error` being `none`. -/
structure ValidationResult where
  valid : Bool
  error : Option String
deriving DecidableEq, Repr

/-- The JavaScript regular-expression class `\s` (the ASCII part). -/
def isJsWs (c : Char) : Bool :=
  c == ' ' || c == '\t' || c == '\n' || c == '\r' || c == '\x0b' || c == '\x0c'

/-- `s.replace(/\s/g, '')`: the characters of `s` with all whitespace
removed. -/
def stripWs (s : String) : List Char :=
  s.data.filter (fun c => !isJsWs c)

/-- The regular-expression class `\d` / `[0-9]`. -/
def isAsciiDigit (c : Char) : Bool := '0' ≤ c && c ≤ '9'

/-- The regular-expression class `[a-zA-Z]`. -/
def isAsciiAlpha (c : Char) : Bool := ('a' ≤ c && c ≤ 'z') || ('A' ≤ c && c ≤ 'Z')

/-- The regular-expression class `[A-Z]`. -/
def isAsciiUpper (c : Char) : Bool := 'A' ≤ c && c ≤ 'Z'

/-- `parseInt(c, 10)` for a single digit character. -/
def charDigit (c : Char) : ℕ := c.toNat - '0'.toNat

/-- The per-position adjustment of the SIRET Luhn loop: the digit at an
even 0-indexed position is doubled, and 9 is subtracted when the doubled
value exceeds 9. -/
def luhnAdjust (i d : ℕ) : ℕ :=
  if i % 2 = 0 then (if d * 2 > 9 then d * 2 - 9 else d * 2) else d

/-- `validateSiret(siret)`: strips whitespace, requires 14 digits
(`/^\d{14}$/`), then runs the Luhn loop and accepts iff the sum is a
multiple of 10. -/
def validateSiret (siret : String) : ValidationResult :=
  let cleaned := stripWs siret
  if ¬(cleaned.length = 14 ∧ cleaned.all isAsciiDigit = true) then
    { valid := false, error := some "SIRET must be 14 digits" }
  else
    let sum := cleaned.enum.foldl (fun acc p => acc + luhnAdjust p.1 (charDigit p.2)) 0
    if sum % 10 ≠ 0 then { valid := false, error := some "Invalid SIRET checksum" }
    else { valid := true, error := none }

/-- `validateFrenchVAT(vat)`: strips whitespace, upper-cases, and matches
`/^FR[A-Z0-9]{2}\d{9}$/` (format check only, no checksum). -/
def validateFrenchVAT (vat : String) : ValidationResult :=
  let cleaned := (stripWs vat).map Char.toUpper
  let ok : Bool :=
    match cleaned with
    | 'F' :: 'R' :: c1 :: c2 :: rest =>
      (isAsciiUpper c1 || isAsciiDigit c1) && (isAsciiUpper c2 || isAsciiDigit c2)
        && rest.length == 9 && rest.all isAsciiDigit
    | _ => false
  if ¬(ok = true) then
    { valid := false
      error := some "Invalid French VAT format. Expected: FR + 2 chars + 9 digits (e.g. FR12345678901)" }
  else { valid := true, error := none }

/-- The regular-expression class `[a-zA-Z0-9._%+-]` (the local part of
the email pattern). -/
def isLocalChar (c : Char) : Bool :=
  isAsciiAlpha c || isAsciiDigit c || c == '.' || c == '_' || c == '%' || c == '+'
    || c == '-'

/-- The regular-expression class `[a-zA-Z0-9.-]` (the domain part of the
email pattern). -/
def isDomainChar (c : Char) : Bool :=
  isAsciiAlpha c || isAsciiDigit c || c == '.' || c == '-'

/-- Whether a character list matches `[a-zA-Z0-9.-]+\.[a-zA-Z]{2,}`:
some occurrence of `'.'` splits it into a non-empty domain-character
part and an all-alphabetic part of length at least 2. -/
def domainTailMatches (d : List Char) : Bool :=
  (List.range d.length).any (fun i =>
    d.getD i ' ' == '.' && decide (1 ≤ i) && (d.take i).all isDomainChar
      && (d.drop (i + 1)).all isAsciiAlpha && decide (2 ≤ d.length - (i + 1)))

/-- `String.prototype.split(sep)` for a one-character separator, on
character lists. -/
def splitOnChar (sep : Char) : List Char → List (List Char)
  | [] => [[]]
  | c :: rest =>
    if c = sep then [] :: splitOnChar sep rest
    else
      match splitOnChar sep rest with
      | [] => [[c]]
      | part :: parts => (c :: part) :: parts

/-- `emailRegex.test(email)` for
`/^[a-zA-Z0-9._%+-]+@[a-zA-Z0-9.-]+\.[a-zA-Z]{2,}$/`: since `@` occurs
in neither character class, the string must split at `@` into exactly a
non-empty local part and a matching domain part. -/
def emailRegexTest (email : String) : Bool :=
  match splitOnChar '@' email.data with
  | [lpart, dpart] => !lpart.isEmpty && lpart.all isLocalChar && domainTailMatches dpart
  | _ => false

/-- The hardcoded denylist of free consumer email providers. -/
def freeProviders : List String :=
  ["gmail.com", "yahoo.com", "hotmail.com", "outlook.com",
   "live.com", "icloud.com", "protonmail.com", "yandex.ru",
   "mail.ru", "aol.com", "gmx.com", "zoho.com"]

/-- `email.toLowerCase().split('@')[1]` — the element at index 1 of the
split (the empty string standing for JavaScript's `undefined`, which,
like `""`, is never a member of the denylist). `toLowerCase` is modelled
on its ASCII range. -/
def emailDomain (email : String) : String :=
  String.mk ((splitOnChar '@' (email.data.map Char.toLower)).getD 1 [])

/-- `!email || !email.trim()` — the string is empty or consists only of
whitespace. -/
def isBlankStr (email : String) : Bool := email.data.all isJsWs

/-- `validateBusinessEmail(email, allowFreeProviders = false)`: rejects
blank input, then a failed pattern match, then (unless overridden) a
denylisted domain; otherwise accepts. -/
def validateBusinessEmail (email : String) (allowFreeProviders : Bool) :
    ValidationResult :=
  if isBlankStr email then { valid := false, error := some "Email is required" }
  else if ¬(emailRegexTest email = true) then
    { valid := false, error := some "Invalid email format" }
  else if allowFreeProviders = false ∧ emailDomain email ∈ freeProviders then
    { valid := false, error := some "Please use your business email address" }
  else { valid := true, error := none }

/-- JavaScript number-to-string coercion (template-literal
interpolation), modelled exactly for integers — the only values that
reach it in this library (`minDurationDays`, `maxDurationDays`,
`minAmount` default to 1, 365 and 100); a non-integer is rendered with
at most 3 fraction digits. -/
def numStr (q : ℚ) : String :=
  let ip := (if q.num < 0 then "-" else "") ++ Nat.repr q.num.natAbs
  if q.den = 1 then ip
  else
    let m := (if q < 0 then (-⌊-q * 1000 + 1/2⌋ : ℤ) else ⌊q * 1000 + 1/2⌋).natAbs
    let fr := m % 1000
    let frStr := (if fr < 100 then "0" else "") ++ (if fr < 10 then "0" else "")
      ++ Nat.repr fr
    (if q < 0 then "-" else "") ++ Nat.repr (m / 1000) ++ "."
      ++ dropTrailingZeros frStr

/-- `validateCampaignDates(startsAt, endsAt, minDurationDays = 1,
maxDurationDays = 365)`: the two date arguments are given as parse
results (`none` for an invalid date, `some t` for a millisecond
timestamp) and the clock read `new Date()` is the explicit last
parameter `now`. -/
def validateCampaignDates (startsAt endsAt : Option ℚ)
    (minDurationDays maxDurationDays : ℚ) (now : ℚ) : ValidationResult :=
  match startsAt with
  | none => { valid := false, error := some "Invalid start date" }
  | some start =>
    match endsAt with
    | none => { valid := false, error := some "Invalid end date" }
    | some endT =>
      if start < now then
        { valid := false, error := some "Start date cannot be in the past" }
      else if endT ≤ start then
        { valid := false, error := some "End date must be after start date" }
      else
        let durationDays := (endT - start) / (1000 * 60 * 60 * 24)
        if durationDays < minDurationDays then
          { valid := false
            error := some ("Campaign must run for at least " ++ numStr minDurationDays ++ " day(s)") }
        else if durationDays > maxDurationDays then
          { valid := false
            error := some ("Campaign cannot exceed " ++ numStr maxDurationDays ++ " days") }
        else { valid := true, error := none }

/-- `validateDarBudget(amount, minAmount = 100, maxAmount = 10_000_000)`:
requires a whole number (`Number.isInteger`) within the bounds; the
maximum-budget message uses `toLocaleString()` (grouped digits). -/
def validateDarBudget (amount minAmount maxAmount : ℚ) : ValidationResult :=
  if ¬(amount.den = 1) then
    { valid := false, error := some "DAR amount must be a whole number" }
  else if amount < minAmount then
    { valid := false, error := some ("Minimum budget is " ++ numStr minAmount ++ " DAR") }
  else if amount > maxAmount then
    { valid := false, error := some ("Maximum budget is " ++ toLocaleStringEnUS maxAmount ++ " DAR") }
  else { valid := true, error := none }

/-! ## Helper lemmas -/

/-- Folding an accumulating sum equals summing the mapped list. -/
theorem foldl_add_map_sum (g : ℕ × Char → ℕ) :
    ∀ (l : List (ℕ × Char)) (a : ℕ),
      l.foldl (fun acc p => acc + g p) a = a + (l.map g).sum
  | [], a => by simp
  | p :: t, a => by
    simp [List.foldl, foldl_add_map_sum g t, Nat.add_assoc]

/-- On a natural number, `toLocaleString('en-US')` is plain digit
grouping. -/
theorem toLocaleStringEnUS_natCast (n : ℕ) :
    toLocaleStringEnUS (n : ℚ) = natGroup n := by
  have h0 : ¬((n : ℚ) < 0) := not_lt.2 (Nat.cast_nonneg n)
  have h1 : (⌊(n : ℚ) * 1000 + 1/2⌋ : ℤ) = 1000 * n := by
    rw [show ((n : ℚ) * 1000 + 1/2 : ℚ) = ((1000 * n : ℤ) : ℚ) + 1/2 by push_cast; ring]
    rw [Int.floor_int_add]
    norm_num
  have h2 : (1000 * (n : ℤ)).natAbs = 1000 * n := by
    rw [Int.natAbs_mul]
    rfl
  have h3 : ¬((1000 : ℤ) * n < 0) := not_lt.2 (by positivity)
  simp only [toLocaleStringEnUS, if_neg h0, h1, if_neg h3, h2, Nat.mul_mod_right,
    Nat.mul_div_cancel_left n (by norm_num : 0 < 1000)]
  simp

/-! ## Claim theorems -/

/-- C10: for every balance and non-negative required amount, passing the
10%-buffered sufficiency check implies passing the unbuffered one; for a
negative required amount the implication fails, exhibited at
`balance = -1.05`, `required = -1`. -/
theorem hasSufficientDar_buffer_monotone :
    (∀ balance required : ℚ, 0 ≤ required →
      hasSufficientDar balance required true = true →
      hasSufficientDar balance required false = true) ∧
    hasSufficientDar (-21/20) (-1) true = true ∧
    hasSufficientDar (-21/20) (-1) false = false := by
  refine ⟨fun b r hr h => ?_, by norm_num [hasSufficientDar],
    by norm_num [hasSufficientDar]⟩
  simp only [hasSufficientDar, decide_eq_true_eq, ge_iff_le, if_pos, if_neg,
    Bool.false_eq_true, if_false, if_true] at h ⊢
  linarith

/-- Witness for C10 at `balance = 110`, `required = 100`. -/
theorem hasSufficientDar_buffer_monotone_witness :
    hasSufficientDar 110 100 false = true :=
  hasSufficientDar_buffer_monotone.1 110 100 (by norm_num)
    (by norm_num [hasSufficientDar])

/-- C4: `darToEur` and `eurToDar` signal the invalid-argument condition
exactly when the amount is negative, and return normally (with the
documented value) on every non-negative amount. -/
theorem currency_raises_iff_negative :
    ∀ amount rate : ℚ,
      (amount < 0 → darToEur amount rate = .error "DAR amount must be non-negative") ∧
      (0 ≤ amount → darToEur amount rate = .ok (darToEurVal amount rate)) ∧
      (amount < 0 → eurToDar amount rate = .error "EUR amount must be non-negative") ∧
      (0 ≤ amount → eurToDar amount rate = .ok (eurToDarVal amount rate)) := by
  intro a r
  refine ⟨fun h => ?_, fun h => ?_, fun h => ?_, fun h => ?_⟩
  · simp [darToEur, if_pos h]
  · simp [darToEur, not_lt.2 h]
  · simp [eurToDar, if_pos h]
  · simp [eurToDar, not_lt.2 h]

/-- Witness for C4 at `amount = -1` and `amount = 5`, `rate = 0.01`. -/
theorem currency_raises_iff_negative_witness :
    darToEur (-1) (1/100) = .error "DAR amount must be non-negative" ∧
    eurToDar (-1) (1/100) = .error "EUR amount must be non-negative" ∧
    darToEur 5 (1/100) = .ok (darToEurVal 5 (1/100)) ∧
    eurToDar 5 (1/100) = .ok (eurToDarVal 5 (1/100)) :=
  ⟨(currency_raises_iff_negative (-1) (1/100)).1 (by norm_num),
   (currency_raises_iff_negative (-1) (1/100)).2.2.1 (by norm_num),
   (currency_raises_iff_negative 5 (1/100)).2.1 (by norm_num),
   (currency_raises_iff_negative 5 (1/100)).2.2.2 (by norm_num)⟩

/-- C5: for non-negative amounts and a positive rate the round trip
`eurToDar(darToEur(a, r), r)` returns normally and differs from `a` by
at most `0.005/r + 1` (2-decimal rounding plus floor truncation). -/
theorem eurToDar_darToEur_roundtrip_bound :
    ∀ a r : ℚ, 0 ≤ a → 0 < r →
      ∃ e d : ℚ, darToEur a r = .ok e ∧ eurToDar e r = .ok d ∧
        |d - a| ≤ 1/200/r + 1 := by
  intro a r ha hr
  have har : (0 : ℚ) ≤ a * r := mul_nonneg ha hr.le
  have hy0 : (0 : ℚ) ≤ a * r * 100 + 1/2 := by linarith
  have hfl : ((⌊a * r * 100 + 1/2⌋ : ℤ) : ℚ) ≤ a * r * 100 + 1/2 :=
    Int.floor_le _
  have hfg : a * r * 100 + 1/2 - 1 < ((⌊a * r * 100 + 1/2⌋ : ℤ) : ℚ) :=
    Int.sub_one_lt_floor _
  have heval : darToEurVal a r = ((⌊a * r * 100 + 1/2⌋ : ℤ) : ℚ) / 100 := rfl
  have he0 : (0 : ℚ) ≤ darToEurVal a r := by
    rw [heval]
    have : (0 : ℤ) ≤ ⌊a * r * 100 + 1/2⌋ := Int.floor_nonneg.2 hy0
    positivity
  have he_le : darToEurVal a r ≤ a * r + 1/200 := by
    rw [heval, div_le_iff₀ (by norm_num : (0:ℚ) < 100)]
    linarith
  have he_gt : a * r - 1/200 < darToEurVal a r := by
    rw [heval, lt_div_iff₀ (by norm_num : (0:ℚ) < 100)]
    linarith
  have hd_le : eurToDarVal (darToEurVal a r) r ≤ darToEurVal a r / r :=
    Int.floor_le _
  have hd_gt : darToEurVal a r / r - 1 < eurToDarVal (darToEurVal a r) r :=
    Int.sub_one_lt_floor _
  have hdiv_le : darToEurVal a r / r ≤ a + 1/200/r := by
    have h1 : darToEurVal a r / r ≤ (a * r + 1/200) / r := by
      rw [div_le_div_iff_of_pos_right hr]
      exact he_le
    have h2 : (a * r + 1/200) / r = a + 1/200/r := by
      rw [add_div, mul_div_cancel_right₀ a hr.ne']
    linarith [h2 ▸ h1]
  have hdiv_gt : a - 1/200/r < darToEurVal a r / r := by
    have h1 : (a * r - 1/200) / r < darToEurVal a r / r := by
      rw [div_lt_div_iff_of_pos_right hr]
      exact he_gt
    have h2 : (a * r - 1/200) / r = a - 1/200/r := by
      rw [sub_div, mul_div_cancel_right₀ a hr.ne']
    linarith [h2 ▸ h1]
  have hb : (0 : ℚ) < 1/200/r := by positivity
  refine ⟨darToEurVal a r, eurToDarVal (darToEurVal a r) r, ?_, ?_, ?_⟩
  · simp [darToEur, not_lt.2 ha]
  · simp [eurToDar, not_lt.2 he0]
  · rw [abs_le]
    constructor <;> linarith

/-- Witness for C5 at `a = 1000`, `r = 0.01`. -/
theorem eurToDar_darToEur_roundtrip_bound_witness :
    ∃ e d : ℚ, darToEur 1000 (1/100) = .ok e ∧ eurToDar e (1/100) = .ok d ∧
      |d - 1000| ≤ 1/200/(1/100) + 1 :=
  eurToDar_darToEur_roundtrip_bound 1000 (1/100) (by norm_num) (by norm_num)

/-- C8: every `validate*` function is total by construction (each is a
plain function into `ValidationResult`), and every result it returns has
`error` present exactly when `valid` is `false`. -/
theorem validation_error_iff_invalid :
    ∀ (email siret vat : String) (allowFree : Bool) (startsAt endsAt : Option ℚ)
      (minD maxD now amount minA maxA : ℚ),
      ((validateBusinessEmail email allowFree).error.isSome = true ↔
        (validateBusinessEmail email allowFree).valid = false) ∧
      ((validateSiret siret).error.isSome = true ↔ (validateSiret siret).valid = false) ∧
      ((validateFrenchVAT vat).error.isSome = true ↔ (validateFrenchVAT vat).valid = false) ∧
      ((validateCampaignDates startsAt endsAt minD maxD now).error.isSome = true ↔
        (validateCampaignDates startsAt endsAt minD maxD now).valid = false) ∧
      ((validateDarBudget amount minA maxA).error.isSome = true ↔
        (validateDarBudget amount minA maxA).valid = false) := by
  intros
  refine ⟨?_, ?_, ?_, ?_, ?_⟩
  · simp only [validateBusinessEmail]
    repeat' split
    all_goals simp
  · simp only [validateSiret]
    repeat' split
    all_goals simp
  · simp only [validateFrenchVAT]
    repeat' split
    all_goals simp
  · simp only [validateCampaignDates]
    repeat' split
    all_goals simp
  · simp only [validateDarBudget]
    repeat' split
    all_goals simp

/-- C1 counterexample: at `giftCostDar = 1`, `estimatedLeads = 0.5`,
`conversionRate = 1` (all valid per the data model) the returned record
is `{minBudget 1, recommendedBudget 2, maxBudget 0.5}`, violating both
`recommendedBudget ≤ maxBudget` and `minBudget ≤ maxBudget`. -/
theorem calcCampaignBudget_claim_counterexample :
    ¬((calcCampaignBudget 1 (1/2) 1).minBudget ≤
        (calcCampaignBudget 1 (1/2) 1).recommendedBudget ∧
      (calcCampaignBudget 1 (1/2) 1).recommendedBudget ≤
        (calcCampaignBudget 1 (1/2) 1).maxBudget ∧
      0 ≤ (calcCampaignBudget 1 (1/2) 1).minBudget ∧
      0 ≤ (calcCampaignBudget 1 (1/2) 1).recommendedBudget ∧
      0 ≤ (calcCampaignBudget 1 (1/2) 1).maxBudget) := by
  have h : calcCampaignBudget 1 (1/2) 1 = ⟨1, 2, 1/2⟩ := by
    norm_num [calcCampaignBudget, Int.ceil_eq_iff, CampaignBudget.mk.injEq]
    rw [show (⌈(1/2 : ℚ)⌉ : ℤ) = 1 from by norm_num [Int.ceil_eq_iff]]
    have hc2 : (⌈((1 : ℤ) : ℚ) * (6/5)⌉ : ℤ) = 2 := by norm_num [Int.ceil_eq_iff]
    exact_mod_cast hc2
  rw [h]
  norm_num

/-- C1 (amended): for non-negative cost and leads and a conversion rate
in `[0,1]`, all three budget fields are non-negative and
`minBudget ≤ recommendedBudget`; when `estimatedLeads` is moreover a
whole number, `minBudget ≤ maxBudget`. (`recommendedBudget` can exceed
`maxBudget`, and for fractional leads `minBudget` can too.) -/
theorem calcCampaignBudget_bounds :
    ∀ giftCostDar estimatedLeads conversionRate : ℚ,
      0 ≤ giftCostDar → 0 ≤ estimatedLeads → 0 ≤ conversionRate →
      conversionRate ≤ 1 →
      (0 ≤ (calcCampaignBudget giftCostDar estimatedLeads conversionRate).minBudget ∧
       0 ≤ (calcCampaignBudget giftCostDar estimatedLeads conversionRate).recommendedBudget ∧
       0 ≤ (calcCampaignBudget giftCostDar estimatedLeads conversionRate).maxBudget ∧
       (calcCampaignBudget giftCostDar estimatedLeads conversionRate).minBudget ≤
         (calcCampaignBudget giftCostDar estimatedLeads conversionRate).recommendedBudget) ∧
      ((∃ n : ℕ, estimatedLeads = n) →
        (calcCampaignBudget giftCostDar estimatedLeads conversionRate).minBudget ≤
          (calcCampaignBudget giftCostDar estimatedLeads conversionRate).maxBudget) := by
  intro G L C hG hL hC0 hC1
  simp only [calcCampaignBudget]
  have hegZ : (0 : ℤ) ≤ ⌈L * C⌉ := Int.ceil_nonneg (mul_nonneg hL hC0)
  have heg : (0 : ℚ) ≤ ((⌈L * C⌉ : ℤ) : ℚ) := by exact_mod_cast hegZ
  have hmin : (0 : ℚ) ≤ ((⌈L * C⌉ : ℤ) : ℚ) * G := mul_nonneg heg hG
  have hminrec : ((⌈L * C⌉ : ℤ) : ℚ) * G ≤
      ((⌈((⌈L * C⌉ : ℤ) : ℚ) * G * (6/5)⌉ : ℤ) : ℚ) := by
    have h1 : ((⌈L * C⌉ : ℤ) : ℚ) * G ≤ ((⌈L * C⌉ : ℤ) : ℚ) * G * (6/5) :=
      le_mul_of_one_le_right hmin (by norm_num)
    exact h1.trans (Int.le_ceil _)
  refine ⟨⟨hmin, hmin.trans hminrec, mul_nonneg hL hG, hminrec⟩, ?_⟩
  rintro ⟨n, rfl⟩
  have hceil : (⌈(n : ℚ) * C⌉ : ℤ) ≤ (n : ℤ) := by
    rw [Int.ceil_le]
    push_cast
    exact mul_le_of_le_one_right (Nat.cast_nonneg n) hC1
  have hceilQ : ((⌈(n : ℚ) * C⌉ : ℤ) : ℚ) ≤ (n : ℚ) := by exact_mod_cast hceil
  exact mul_le_mul_of_nonneg_right hceilQ hG

/-- Witness for C1 (amended) at the spec worked example
`calcCampaignBudget(10, 1000, 0.15)`. -/
theorem calcCampaignBudget_bounds_witness :
    (0 ≤ (calcCampaignBudget 10 1000 (3/20)).minBudget ∧
     0 ≤ (calcCampaignBudget 10 1000 (3/20)).recommendedBudget ∧
     0 ≤ (calcCampaignBudget 10 1000 (3/20)).maxBudget ∧
     (calcCampaignBudget 10 1000 (3/20)).minBudget ≤
       (calcCampaignBudget 10 1000 (3/20)).recommendedBudget) ∧
    (calcCampaignBudget 10 1000 (3/20)).minBudget ≤
      (calcCampaignBudget 10 1000 (3/20)).maxBudget :=
  ⟨(calcCampaignBudget_bounds 10 1000 (3/20) (by norm_num) (by norm_num)
      (by norm_num) (by norm_num)).1,
   (calcCampaignBudget_bounds 10 1000 (3/20) (by norm_num) (by norm_num)
      (by norm_num) (by norm_num)).2 ⟨1000, by norm_num⟩⟩

/-- C2 counterexample: `validateCampaignDates`, called twice with
identical arguments (start at epoch 0, end one day later, default
bounds) but at two clock readings, returns different results — its
result does not depend only on its arguments. -/
theorem validateCampaignDates_clock_counterexample :
    validateCampaignDates (some 0) (some 86400000) 1 365 0 ≠
      validateCampaignDates (some 0) (some 86400000) 1 365 1000000000000 := by
  norm_num [validateCampaignDates, ValidationResult.mk.injEq]

/-- C2 (amended): every exported function other than
`validateCampaignDates` depends only on its arguments;
`validateCampaignDates` additionally reads the current clock, but only
through the check whether the start date is strictly in the past: two
invocations with identical arguments whose clock readings agree on that
comparison return identical results, while clock readings that disagree
on it can produce different results. -/
theorem validateCampaignDates_clock_dependence :
    (∀ (startsAt endsAt : Option ℚ) (minD maxD now1 now2 : ℚ),
      (∀ t : ℚ, startsAt = some t → (t < now1 ↔ t < now2)) →
      validateCampaignDates startsAt endsAt minD maxD now1 =
        validateCampaignDates startsAt endsAt minD maxD now2) ∧
    validateCampaignDates (some 0) (some 86400000) 1 365 (-1) ≠
      validateCampaignDates (some 0) (some 86400000) 1 365 1000000000000 := by
  constructor
  · intro startsAt endsAt minD maxD n1 n2 h
    match startsAt with
    | none => rfl
    | some t =>
      match endsAt with
      | none => rfl
      | some endT =>
        by_cases ht : t < n1
        · have ht2 : t < n2 := (h t rfl).1 ht
          simp [validateCampaignDates, ht, ht2]
        · have ht2 : ¬(t < n2) := fun hh => ht ((h t rfl).2 hh)
          simp [validateCampaignDates, ht, ht2]
  · norm_num [validateCampaignDates, ValidationResult.mk.injEq]

/-- Witness for C2 (amended): two clock readings that agree that the
start date is not in the past give identical results. -/
theorem validateCampaignDates_clock_dependence_witness :
    validateCampaignDates (some 0) (some 86400000) 1 365 (-5) =
      validateCampaignDates (some 0) (some 86400000) 1 365 (-3) :=
  validateCampaignDates_clock_dependence.1 (some 0) (some 86400000) 1 365 (-5) (-3)
    (by
      intro t ht
      injection ht with h
      rw [← h]
      norm_num)

/-- C3: `validateSiret` strips whitespace, rejects anything that is not
exactly 14 digits, and otherwise accepts iff the position-indexed
Luhn-style sum (each digit at an even 0-indexed position doubled, minus
9 when the doubled value exceeds 9) is a multiple of 10; and the two
worked examples. -/
theorem validateSiret_correct :
    (∀ s : String,
      validateSiret s =
        if (stripWs s).length = 14 ∧ (stripWs s).all isAsciiDigit = true then
          if ((stripWs s).enum.map (fun p =>
                if p.1 % 2 = 0 then
                  (if charDigit p.2 * 2 > 9 then charDigit p.2 * 2 - 9
                   else charDigit p.2 * 2)
                else charDigit p.2)).sum % 10 = 0 then
            { valid := true, error := none }
          else { valid := false, error := some "Invalid SIRET checksum" }
        else { valid := false, error := some "SIRET must be 14 digits" }) ∧
    validateSiret "732 829 320 00074" = { valid := true, error := none } ∧
    validateSiret "12345678901234" =
      { valid := false, error := some "Invalid SIRET checksum" } := by
  refine ⟨fun s => ?_, by decide, by decide⟩
  simp only [validateSiret, foldl_add_map_sum, Nat.zero_add, luhnAdjust, ite_not]

/-- C6: `validateBusinessEmail` returns the first applicable error —
blank input, then a failed pattern match, then (unless
`allowFreeProviders`) a denylisted domain compared case-insensitively —
and accepts everything else; the denylist has 12 entries; and
`validateBusinessEmail("user@gmail.com", true)` accepts. -/
theorem validateBusinessEmail_correct :
    (∀ (email : String) (allow : Bool), isBlankStr email = true →
      validateBusinessEmail email allow =
        { valid := false, error := some "Email is required" }) ∧
    (∀ (email : String) (allow : Bool), isBlankStr email = false →
      emailRegexTest email = false →
      validateBusinessEmail email allow =
        { valid := false, error := some "Invalid email format" }) ∧
    (∀ email : String, isBlankStr email = false → emailRegexTest email = true →
      emailDomain email ∈ freeProviders →
      validateBusinessEmail email false =
        { valid := false, error := some "Please use your business email address" }) ∧
    (∀ (email : String) (allow : Bool), isBlankStr email = false →
      emailRegexTest email = true →
      (allow = true ∨ emailDomain email ∉ freeProviders) →
      validateBusinessEmail email allow = { valid := true, error := none }) ∧
    freeProviders.length = 12 ∧
    validateBusinessEmail "user@gmail.com" true = { valid := true, error := none } := by
  refine ⟨?_, ?_, ?_, ?_, by decide, by decide⟩
  · intro email allow h
    simp [validateBusinessEmail, h]
  · intro email allow h1 h2
    simp [validateBusinessEmail, h1, h2]
  · intro email h1 h2 h3
    simp [validateBusinessEmail, h1, h2, h3]
  · intro email allow h1 h2 h3
    rcases h3 with h3 | h3
    · subst h3
      simp [validateBusinessEmail, h1, h2]
    · simp [validateBusinessEmail, h1, h2, h3]

/-- Witness for C6: each branch at a concrete input — a whitespace-only
string, a malformed address, a free-provider address, and a business
address. -/
theorem validateBusinessEmail_correct_witness :
    validateBusinessEmail "   " false = { valid := false, error := some "Email is required" } ∧
    validateBusinessEmail "not-an-email" false =
      { valid := false, error := some "Invalid email format" } ∧
    validateBusinessEmail "user@gmail.com" false =
      { valid := false, error := some "Please use your business email address" } ∧
    validateBusinessEmail "ceo@acme.com" false = { valid := true, error := none } :=
  ⟨validateBusinessEmail_correct.1 "   " false (by decide),
   validateBusinessEmail_correct.2.1 "not-an-email" false (by decide) (by decide),
   validateBusinessEmail_correct.2.2.1 "user@gmail.com" (by decide) (by decide)
     (by decide),
   validateBusinessEmail_correct.2.2.2.1 "ceo@acme.com" false (by decide) (by decide)
     (Or.inr (by decide))⟩

/-- C7: `validateCampaignDates` evaluates its checks in the fixed source
order and returns on the first failure; durations exactly equal to
either bound are accepted. -/
theorem validateCampaignDates_check_order :
    (∀ (endsAt : Option ℚ) (minD maxD now : ℚ),
      validateCampaignDates none endsAt minD maxD now =
        { valid := false, error := some "Invalid start date" }) ∧
    (∀ (start minD maxD now : ℚ),
      validateCampaignDates (some start) none minD maxD now =
        { valid := false, error := some "Invalid end date" }) ∧
    (∀ (start endT minD maxD now : ℚ), start < now →
      validateCampaignDates (some start) (some endT) minD maxD now =
        { valid := false, error := some "Start date cannot be in the past" }) ∧
    (∀ (start endT minD maxD now : ℚ), ¬(start < now) → endT ≤ start →
      validateCampaignDates (some start) (some endT) minD maxD now =
        { valid := false, error := some "End date must be after start date" }) ∧
    (∀ (start endT minD maxD now : ℚ), ¬(start < now) → start < endT →
      (endT - start) / (1000 * 60 * 60 * 24) < minD →
      validateCampaignDates (some start) (some endT) minD maxD now =
        { valid := false,
          error := some ("Campaign must run for at least " ++ numStr minD ++ " day(s)") }) ∧
    (∀ (start endT minD maxD now : ℚ), ¬(start < now) → start < endT →
      minD ≤ (endT - start) / (1000 * 60 * 60 * 24) →
      maxD < (endT - start) / (1000 * 60 * 60 * 24) →
      validateCampaignDates (some start) (some endT) minD maxD now =
        { valid := false,
          error := some ("Campaign cannot exceed " ++ numStr maxD ++ " days") }) ∧
    (∀ (start endT minD maxD now : ℚ), ¬(start < now) → start < endT →
      minD ≤ (endT - start) / (1000 * 60 * 60 * 24) →
      (endT - start) / (1000 * 60 * 60 * 24) ≤ maxD →
      validateCampaignDates (some start) (some endT) minD maxD now =
        { valid := true, error := none }) := by
  refine ⟨fun _ _ _ _ => rfl, fun _ _ _ _ => rfl, ?_, ?_, ?_, ?_, ?_⟩
  · intro start endT minD maxD now h
    simp [validateCampaignDates, h]
  · intro start endT minD maxD now h1 h2
    simp [validateCampaignDates, h1, h2]
  · intro start endT minD maxD now h1 h2 h3
    simp [validateCampaignDates, h1, not_le.2 h2, h3]
  · intro start endT minD maxD now h1 h2 h3 h4
    simp [validateCampaignDates, h1, not_le.2 h2, not_lt.2 h3, h4]
  · intro start endT minD maxD now h1 h2 h3 h4
    simp [validateCampaignDates, h1, not_le.2 h2, not_lt.2 h3, not_lt.2 h4]

/-- Witness for C7: each check at a concrete input, including the
boundary cases where the duration equals the minimum or maximum. -/
theorem validateCampaignDates_check_order_witness :
    validateCampaignDates (some 10) (some 20) 1 365 100 =
      { valid := false, error := some "Start date cannot be in the past" } ∧
    validateCampaignDates (some 10) (some 10) 1 365 0 =
      { valid := false, error := some "End date must be after start date" } ∧
    validateCampaignDates (some 0) (some 43200000) 1 365 0 =
      { valid := false,
        error := some ("Campaign must run for at least " ++ numStr 1 ++ " day(s)") } ∧
    validateCampaignDates (some 0) (some 172800000) 1 2 0 =
      { valid := true, error := none } ∧
    validateCampaignDates (some 0) (some 259200000) 1 2 0 =
      { valid := false, error := some ("Campaign cannot exceed " ++ numStr 2 ++ " days") } ∧
    validateCampaignDates (some 0) (some 86400000) 1 365 0 =
      { valid := true, error := none } :=
  ⟨validateCampaignDates_check_order.2.2.1 10 20 1 365 100 (by norm_num),
   validateCampaignDates_check_order.2.2.2.1 10 10 1 365 0 (by norm_num) (by norm_num),
   validateCampaignDates_check_order.2.2.2.2.1 0 43200000 1 365 0 (by norm_num)
     (by norm_num) (by norm_num),
   validateCampaignDates_check_order.2.2.2.2.2.2 0 172800000 1 2 0 (by norm_num)
     (by norm_num) (by norm_num) (by norm_num),
   validateCampaignDates_check_order.2.2.2.2.2.1 0 259200000 1 2 0 (by norm_num)
     (by norm_num) (by norm_num) (by norm_num),
   validateCampaignDates_check_order.2.2.2.2.2.2 0 86400000 1 365 0 (by norm_num)
     (by norm_num) (by norm_num) (by norm_num)⟩

/-- C9: with `compact` set, `formatDar` renders amounts ≥ 1,000,000 as
the amount over 1,000,000 to 2 decimals plus `"M"` and amounts in
[1,000, 1,000,000) as the amount over 1,000 to 2 decimals plus `"K"`;
otherwise it renders with thousands-separator grouping; `" DAR"` is
appended exactly when `showSymbol` holds; and the two worked examples. -/
theorem formatDar_correct :
    (∀ (amount : ℚ) (c : Bool),
      formatDar amount c true = formatDar amount c false ++ " DAR") ∧
    (∀ (amount : ℚ) (ss : Bool), 1000000 ≤ amount →
      formatDar amount true ss =
        toFixed2Str (amount / 1000000) ++ "M" ++ (if ss then " DAR" else "")) ∧
    (∀ (amount : ℚ) (ss : Bool), 1000 ≤ amount → amount < 1000000 →
      formatDar amount true ss =
        toFixed2Str (amount / 1000) ++ "K" ++ (if ss then " DAR" else "")) ∧
    (∀ (amount : ℚ) (ss : Bool), amount < 1000 →
      formatDar amount true ss =
        toLocaleStringEnUS amount ++ (if ss then " DAR" else "")) ∧
    (∀ (amount : ℚ) (ss : Bool),
      formatDar amount false ss =
        toLocaleStringEnUS amount ++ (if ss then " DAR" else "")) ∧
    formatDar 1250 false true = "1,250 DAR" ∧
    formatDar 1250000 true true = "1.25M DAR" := by
  refine ⟨?_, ?_, ?_, ?_, ?_, ?_, ?_⟩
  · intro a c
    cases c <;> simp only [formatDar] <;> split_ifs <;>
      first
        | contradiction
        | simp [String.append_assoc, String.append_empty]
  · intro a ss h
    simp [formatDar, h, ge_iff_le]
  · intro a ss h1 h2
    simp [formatDar, h1, not_le.2 h2, ge_iff_le]
  · intro a ss h
    simp [formatDar, not_le.2 h, ge_iff_le, show ¬(1000000 ≤ a) by linarith]
  · intro a ss
    simp [formatDar]
  · unfold formatDar
    rw [if_neg (by decide)]
    rw [show (1250 : ℚ) = ((1250 : ℕ) : ℚ) by norm_num, toLocaleStringEnUS_natCast]
    decide
  · unfold formatDar
    have h : (⌊(1250000 : ℚ) / 1000000 * 100 + 1/2⌋ : ℤ) = 125 := by
      norm_num [Int.floor_eq_iff]
    rw [if_pos (by decide), if_pos (by norm_num)]
    unfold toFixed2Str
    rw [h]
    decide

/-- Witness for C9: the three compact branches at concrete amounts. -/
theorem formatDar_correct_witness :
    formatDar 2000000 true true = toFixed2Str (2000000/1000000) ++ "M" ++ " DAR" ∧
    formatDar 5000 true true = toFixed2Str (5000/1000) ++ "K" ++ " DAR" ∧
    formatDar 10 true true = toLocaleStringEnUS 10 ++ " DAR" :=
  ⟨by simpa using formatDar_correct.2.1 2000000 true (by norm_num),
   by simpa using formatDar_correct.2.2.1 5000 true (by norm_num) (by norm_num),
   by simpa using formatDar_correct.2.2.2.1 10 true (by norm_num)⟩
